import Mathlib

/-!
Verification development for the mcp-router repository.

The repository has two layers, both embedded here:

* `discovery_service.py` — class `DiscoveryService` with `add_server`,
  `search_server` and `get_server_endpoint`, built over two external
  collaborators: a text-embedding provider (DashScope) and a vector store
  (DashVector).  The collaborators are abstracted into a `DiscEnv`
  record of fallible functions; the vector store's record collection is a
  `Store` (a list of documents with upsert-by-id semantics, modelled from
  the spec's VectorStore contract: upsert by id, top-k query).
* `mcp_router.py` — the dispatcher tools `exec_mcp_tool`,
  `_execute_sse_tool`, `_execute_http_tool`, and the wrappers
  `add_mcp_server` / `search_mcp_server`.  Network calls are abstracted
  into a `DispatchEnv` record of fallible functions.

Python exceptions are modelled with `Except String`; each operation also
returns an explicit event trace (store queries issued, outbound posts,
resource acquisition/release) so that claims about *which* external calls
happen, and in which order, are statable.
-/

/-- JSON values, as passed between the router, the store metadata and remote
services.  Numbers are restricted to integers (the only numbers the source
constructs are the literal `1` and scores, whose value no claim inspects). -/
inductive Json where
  | null : Json
  | bool (b : Bool) : Json
  | num (n : Int) : Json
  | str (s : String) : Json
  | arr (elems : List Json) : Json
  | obj (fields : List (String × Json)) : Json

mutual

/-- Serializer for `Json`, standing in for Python's `json.dumps` (insertion
order of object fields preserved, as in CPython). -/
def Json.dumps : Json → String
  | .null => "null"
  | .bool b => if b then "true" else "false"
  | .num n => toString n
  | .str s => "\"" ++ s ++ "\""
  | .arr elems => "[" ++ Json.dumpsArr elems ++ "]"
  | .obj fields => "\x7b" ++ Json.dumpsObj fields ++ "\x7d"

/-- Comma-separated serialization of a JSON array's elements. -/
def Json.dumpsArr : List Json → String
  | [] => ""
  | [j] => Json.dumps j
  | j :: rest => Json.dumps j ++ ", " ++ Json.dumpsArr rest

/-- Comma-separated serialization of a JSON object's fields. -/
def Json.dumpsObj : List (String × Json) → String
  | [] => ""
  | [kv] => "\"" ++ kv.1 ++ "\": " ++ Json.dumps kv.2
  | kv :: rest => "\"" ++ kv.1 ++ "\": " ++ Json.dumps kv.2 ++ ", " ++ Json.dumpsObj rest

end

/-- The structured error payload `json.dumps({"error": str(e)})` that every
caller-facing tool in `mcp_router.py` returns on failure. -/
def errorPayload (e : String) : String :=
  Json.dumps (Json.obj [("error", Json.str e)])

/-- Embedding vectors.  Their numeric content is irrelevant to every claim
(similarity ranking is delegated to the external store), so the component
type is `Int`; only the identity of a vector as a value matters. -/
abbrev Vec := List Int

/-- The metadata fields `add_server` stores with each document
(`server_description`, `server_endpoint`, `tools`); `tools` is kept as the
serialized string it was handed, never parsed by this layer. -/
structure DocFields where
  server_description : String
  server_endpoint : String
  tools : String
deriving DecidableEq, Repr

/-- A DashVector document: `Doc(id=server_name, vector=..., fields=...)`. -/
structure Doc where
  id : String
  vector : Vec
  fields : DocFields
deriving DecidableEq, Repr

/-- The vector store's record collection.  Modelled from the spec's
VectorStore contract: records keyed by `id`, upsert-by-id on insert. -/
structure Store where
  docs : List Doc
deriving DecidableEq, Repr

/-- Modelled from the spec: the VectorStore collaborator's `upsert` —
`insert` with an id already present overwrites that record, otherwise the
record is appended.  (The store itself is external to the repository; the
spec fixes upsert-by-id semantics for it.) -/
def Store.upsert (st : Store) (d : Doc) : Store :=
  if st.docs.any (fun e => e.id == d.id) then
    ⟨st.docs.map fun e => if e.id == d.id then d else e⟩
  else
    ⟨st.docs ++ [d]⟩

/-- No two records of the collection share an id (the spec's uniqueness
invariant for `identity`). -/
def keysNodup (docs : List Doc) : Prop :=
  docs.Pairwise (fun a b => a.id ≠ b.id)

instance (docs : List Doc) : Decidable (keysNodup docs) := by
  unfold keysNodup; infer_instance

/-- One entry of the list `search_server` returns: server name, the three
projected metadata fields, and the similarity score. -/
structure SearchResult where
  server_name : String
  server_description : String
  server_endpoint : String
  tools : String
  score : Int
deriving DecidableEq, Repr

/-- The dict `add_server` returns on success. -/
structure RegResult where
  status : String
  message : String
deriving DecidableEq, Repr

/-- The external collaborators of `DiscoveryService`, as fallible functions.
`Except.error e` models a raised Python exception with message `e`. -/
structure DiscEnv where
  /-- `_generate_embedding`: DashScope call; raises when the provider's
  status is not 200. -/
  embed : String → Except String Vec
  /-- Truthiness of the response of `collection.insert` (falsy makes
  `add_server` raise). -/
  insertOk : Doc → Bool
  /-- A raised exception from the `collection.query` client call itself
  (network-level), if any, for a given query vector and topk. -/
  queryRaise : Vec → Int → Option String
  /-- Truthiness of the response of `collection.query` (falsy makes
  `search_server` raise "Failed to query DashVector"). -/
  queryRsp : Vec → Int → Bool
  /-- The order in which the store ranks the collection for a query vector
  (nearest first).  The store is external: where a claim needs it, a
  hypothesis states that this is a permutation of the collection. -/
  rank : Vec → List Doc → List Doc
  /-- The similarity score the store reports for a stored vector against a
  query vector. -/
  score : Vec → Vec → Int

/-- Events at the discovery layer: an embedding-provider call and a vector
store query (with the topk actually sent). -/
inductive DEvent where
  | embedCall (text : String) : DEvent
  | storeQuery (v : Vec) (topk : Int) : DEvent
deriving DecidableEq, Repr

/-- `DiscoveryService.add_server`: embed the description, insert a document
keyed by the server name with the three metadata fields (`tools` already a
serialized string), raise if the insert response is falsy. -/
def add_server (env : DiscEnv) (st : Store) (server_name server_description
    server_endpoint tools : String) : Except String (RegResult × Store) :=
  match env.embed server_description with
  | .error e => .error e
  | .ok service_vector =>
    let d : Doc := ⟨server_name, service_vector,
      ⟨server_description, server_endpoint, tools⟩⟩
    if env.insertOk d then
      .ok (⟨"success", "Server '" ++ server_name ++ "' registered."⟩, st.upsert d)
    else
      .error ("Failed to insert server '" ++ server_name ++ "' into DashVector")

/-- The result record `search_server` builds from one returned document. -/
def mkResult (env : DiscEnv) (qv : Vec) (d : Doc) : SearchResult :=
  ⟨d.id, d.fields.server_description, d.fields.server_endpoint,
    d.fields.tools, env.score qv d.vector⟩

/-- `DiscoveryService.search_server`: embed the query, query the store with
`topk = top_k` (no validation of `top_k` anywhere), and map the returned
documents to result records.  The trace records the embedding call and the
store query actually issued.  The store's reply is the ranked collection
truncated to `top_k` (a non-positive `top_k` yields no documents). -/
def search_server (env : DiscEnv) (st : Store) (query : String)
    (top_k : Int) : Except String (List SearchResult) × List DEvent :=
  match env.embed query with
  | .error e => (.error e, [.embedCall query])
  | .ok query_vector =>
    match env.queryRaise query_vector top_k with
    | some e => (.error e, [.embedCall query, .storeQuery query_vector top_k])
    | none =>
      if env.queryRsp query_vector top_k then
        (.ok (((env.rank query_vector st.docs).take top_k.toNat).map
            (mkResult env query_vector)),
          [.embedCall query, .storeQuery query_vector top_k])
      else
        (.error "Failed to query DashVector",
          [.embedCall query, .storeQuery query_vector top_k])

/-- The message of the exception `get_server_endpoint` raises when it finds
no exact match (also reached when a probe raised and was swallowed). -/
def notFoundMsg (server_name : String) : String :=
  "Server '" ++ server_name ++ "' not found"

/-- `DiscoveryService.get_server_endpoint`: inside one `try`, run
`search_server(server_name, 20)` and scan for an exact name match; if none,
run `search_server("", 100)` and scan again; any exception from either probe
is swallowed (`except Exception: pass`) and, like the no-match case, falls
through to `raise Exception("Server '...' not found")`.  The second
component records the probes issued, as (query, topk) pairs. -/
def get_server_endpoint (env : DiscEnv) (st : Store) (server_name : String) :
    Except String String × List (String × Int) :=
  match (search_server env st server_name 20).1 with
  | .error _ => (.error (notFoundMsg server_name), [(server_name, 20)])
  | .ok results =>
    match results.find? (fun r => r.server_name == server_name) with
    | some r => (.ok r.server_endpoint, [(server_name, 20)])
    | none =>
      match (search_server env st "" 100).1 with
      | .error _ =>
        (.error (notFoundMsg server_name), [(server_name, 20), ("", 100)])
      | .ok general_results =>
        match general_results.find? (fun r => r.server_name == server_name) with
        | some r => (.ok r.server_endpoint, [(server_name, 20), ("", 100)])
        | none =>
          (.error (notFoundMsg server_name), [(server_name, 20), ("", 100)])

/-- Resources acquired by the streaming transport's exit stack. -/
inductive Res where
  | stream : Res
  | session : Res
deriving DecidableEq, Repr

/-- Events at the dispatcher layer: which transport strategy was entered,
each outbound HTTP post (with its body), and each resource acquisition and
release of the streaming transport's exit stack. -/
inductive TEvent where
  | sseCall (endpoint : String) : TEvent
  | httpCall (endpoint : String) : TEvent
  | post (endpoint : String) (body : Json) : TEvent
  | acquire (r : Res) : TEvent
  | release (r : Res) : TEvent

/-- The external collaborators of the dispatcher in `mcp_router.py`, as
fallible functions.  Stream and session handles are opaque naturals. -/
structure DispatchEnv where
  /-- `discovery_service.get_server_endpoint` as seen by the dispatcher: an
  endpoint string, or a raised exception. -/
  resolve : String → Except String String
  /-- The module flag `HAVE_SSE_SUPPORT` (did the SSE imports succeed). -/
  haveSse : Bool
  /-- One `httpx` POST of a JSON body to an endpoint, composed with
  `response.json()`: the decoded response body, or a raised exception
  (network error or undecodable body). -/
  post : String → Json → Except String Json
  /-- Entering the `sse_client(endpoint)` context: a stream handle, or a
  raised exception (in which case nothing was pushed on the exit stack). -/
  sseConnect : String → Except String Nat
  /-- Constructing and entering the `ClientSession(streams[0], streams[1])`
  context: a session handle, or a raised exception. -/
  sessionEnter : Nat → Except String Nat
  /-- `session.initialize()`. -/
  sessionInit : Nat → Except String Unit
  /-- `session.call_tool(tool_name, parameters)`, composed with the
  `_asdict`/`__dict__` flattening of the result into a JSON value (no claim
  inspects the flattening itself). -/
  callTool : Nat → String → Json → Except String Json

/-- The JSON-RPC envelope `_execute_http_tool` constructs. -/
def jsonRpcRequest (tool_name : String) (parameters : Json) : Json :=
  .obj [("jsonrpc", .str "2.0"),
        ("method", .str "tools/call"),
        ("params", .obj [("name", .str tool_name), ("arguments", parameters)]),
        ("id", .num 1)]

/-- `_execute_http_tool`: build the JSON-RPC envelope, POST it once to the
endpoint, and return the decoded response body re-serialized, with no
inspection of its fields.  A raised exception propagates (caught only by
`exec_mcp_tool`).  The trace records the single post with its exact body. -/
def _execute_http_tool (env : DispatchEnv) (endpoint tool_name : String)
    (parameters : Json) : Except String String × List TEvent :=
  let json_rpc_request := jsonRpcRequest tool_name parameters
  match env.post endpoint json_rpc_request with
  | .error e => (.error e, [.post endpoint json_rpc_request])
  | .ok response_data =>
    (.ok (Json.dumps response_data), [.post endpoint json_rpc_request])

/-- `_execute_sse_tool`: an `AsyncExitStack` scopes the stream and the
session.  Each successfully entered context is pushed on the stack; the
`finally: await exit_stack.aclose()` pops and releases them in reverse
order of acquisition on every exit path (success, exception, cancellation —
an `asyncio` cancellation surfaces as an exception through `finally`, so it
is one more `.error` exit here).  A step's exception propagates to
`exec_mcp_tool` after the cleanup. -/
def _execute_sse_tool (env : DispatchEnv) (endpoint tool_name : String)
    (parameters : Json) : Except String String × List TEvent :=
  match env.sseConnect endpoint with
  | .error e => (.error e, [])
  | .ok streams =>
    let inner : Except String String × List TEvent :=
      match env.sessionEnter streams with
      | .error e => (.error e, [])
      | .ok session =>
        let innermost : Except String String × List TEvent :=
          match env.sessionInit session with
          | .error e => (.error e, [])
          | .ok _ =>
            match env.callTool session tool_name parameters with
            | .error e => (.error e, [])
            | .ok result => (.ok (Json.dumps result), [])
        (innermost.1, .acquire .session :: innermost.2 ++ [.release .session])
    (inner.1, .acquire .stream :: inner.2 ++ [.release .stream])

/-- Whether the first list is a prefix of the second. -/
def charsPrefixOf : List Char → List Char → Bool
  | [], _ => true
  | _ :: _, [] => false
  | p :: ps, c :: cs => p == c && charsPrefixOf ps cs

/-- Whether the pattern occurs contiguously inside the second list
(Python's `in` on strings, over the character lists). -/
def charsInfixOf (pat : List Char) : List Char → Bool
  | [] => charsPrefixOf pat []
  | c :: cs => charsPrefixOf pat (c :: cs) || charsInfixOf pat cs

/-- Whether `"sse" in target_endpoint.lower()` holds (`lower` is the
character-wise ASCII lowering). -/
def sseInEndpoint (target_endpoint : String) : Bool :=
  charsInfixOf "sse".toList (target_endpoint.toList.map Char.toLower)

/-- The body of `exec_mcp_tool`'s `try` block: resolve the endpoint, pick
the transport (`"sse" in endpoint.lower() and HAVE_SSE_SUPPORT` chooses the
streaming strategy), run it.  The trace marks the strategy entered. -/
def execInner (env : DispatchEnv) (target_server_name target_tool_name : String)
    (parameters : Json) : Except String String × List TEvent :=
  match env.resolve target_server_name with
  | .error e => (.error e, [])
  | .ok target_endpoint =>
    if sseInEndpoint target_endpoint && env.haveSse then
      let r := _execute_sse_tool env target_endpoint target_tool_name parameters
      (r.1, .sseCall target_endpoint :: r.2)
    else
      let r := _execute_http_tool env target_endpoint target_tool_name parameters
      (r.1, .httpCall target_endpoint :: r.2)

/-- `exec_mcp_tool`: the `try` body above inside `except Exception as e:
return json.dumps({"error": str(e)})` — the returned string is the body's
result on success and the structured error payload on any raised failure. -/
def exec_mcp_tool (env : DispatchEnv) (target_server_name target_tool_name : String)
    (parameters : Json) : String × List TEvent :=
  match execInner env target_server_name target_tool_name parameters with
  | (.ok r, evs) => (r, evs)
  | (.error e, evs) => (errorPayload e, evs)

/-- Leading spaces removed (the only whitespace `Json.dumps` emits). -/
def skipWs : List Char → List Char
  | [] => []
  | c :: cs => if c == ' ' then skipWs cs else c :: cs

/-- Value of a list of decimal digit characters. -/
def digitsVal (ds : List Char) : Nat :=
  ds.foldl (fun a c => a * 10 + (c.toNat - 48)) 0

mutual

/-- Fuel-bounded JSON parser (Python's `json.loads`, restricted to the
grammar `Json.dumps` emits): parses one value, returns it with the unread
rest.  `none` is a decode failure (which `json.loads` raises). -/
def parseJsonF : Nat → List Char → Option (Json × List Char)
  | 0, _ => none
  | Nat.succ fuel, cs =>
    match skipWs cs with
    | [] => none
    | c :: rest =>
      if c == 'n' then
        match rest with
        | 'u' :: 'l' :: 'l' :: r => some (.null, r)
        | _ => none
      else if c == 't' then
        match rest with
        | 'r' :: 'u' :: 'e' :: r => some (.bool true, r)
        | _ => none
      else if c == 'f' then
        match rest with
        | 'a' :: 'l' :: 's' :: 'e' :: r => some (.bool false, r)
        | _ => none
      else if c == '"' then
        let body := rest.takeWhile (fun x => x != '"')
        match rest.drop body.length with
        | '"' :: r => some (.str (String.mk body), r)
        | _ => none
      else if c == '-' then
        let ds := rest.takeWhile Char.isDigit
        if ds.isEmpty then none
        else some (.num (-(digitsVal ds : Int)), rest.drop ds.length)
      else if c.isDigit then
        let ds := (c :: rest).takeWhile Char.isDigit
        some (.num (digitsVal ds : Int), (c :: rest).drop ds.length)
      else if c == '[' then
        match skipWs rest with
        | ']' :: r => some (.arr [], r)
        | rest2 =>
          match parseElemsF fuel rest2 with
          | some (elems, r) => some (.arr elems, r)
          | none => none
      else if c == Char.ofNat 123 then
        match skipWs rest with
        | c2 :: r =>
          if c2 == Char.ofNat 125 then some (.obj [], r)
          else
            match parseFieldsF fuel (c2 :: r) with
            | some (fields, r2) => some (.obj fields, r2)
            | none => none
        | [] => none
      else none

/-- Comma-separated values up to the closing `]` (at least one value). -/
def parseElemsF : Nat → List Char → Option (List Json × List Char)
  | 0, _ => none
  | Nat.succ fuel, cs =>
    match parseJsonF fuel cs with
    | none => none
    | some (j, rest) =>
      match skipWs rest with
      | ',' :: r =>
        match parseElemsF fuel r with
        | some (elems, r2) => some (j :: elems, r2)
        | none => none
      | ']' :: r => some ([j], r)
      | _ => none

/-- Comma-separated `"key": value` pairs up to the closing brace (at least
one pair). -/
def parseFieldsF : Nat → List Char → Option (List (String × Json) × List Char)
  | 0, _ => none
  | Nat.succ fuel, cs =>
    match skipWs cs with
    | '"' :: rest =>
      let key := rest.takeWhile (fun x => x != '"')
      match rest.drop key.length with
      | '"' :: afterKey =>
        match skipWs afterKey with
        | ':' :: afterColon =>
          match parseJsonF fuel afterColon with
          | none => none
          | some (j, rest2) =>
            match skipWs rest2 with
            | ',' :: r =>
              match parseFieldsF fuel r with
              | some (fields, r2) => some ((String.mk key, j) :: fields, r2)
              | none => none
            | c2 :: r =>
              if c2 == Char.ofNat 125 then some ([(String.mk key, j)], r)
              else none
            | [] => none
        | _ => none
      | _ => none
    | _ => none

end

/-- Python's `json.loads` over the serializations this program produces:
parse one value and require only whitespace after it; failure models the
`json` module raising. -/
def json_loads (s : String) : Except String Json :=
  match parseJsonF (s.length + 1) s.toList with
  | some (j, rest) =>
    if (skipWs rest).isEmpty then .ok j else .error "Extra data"
  | none => .error "Expecting value"

/-- The dict `search_mcp_server` serializes for one search result, after
replacing the `tools` string by its parsed value (CPython key order). -/
def resultJson (r : SearchResult) (tools : Json) : Json :=
  .obj [("server_name", .str r.server_name),
        ("server_description", .str r.server_description),
        ("server_endpoint", .str r.server_endpoint),
        ("tools", tools),
        ("score", .num r.score)]

/-- The tool `search_mcp_server`: run `search_server`, parse each result's
`tools` JSON string back to a structured value, serialize the result list;
any raised exception (search failure or a `tools` string `json.loads`
rejects) becomes the structured error payload. -/
def search_mcp_server (env : DiscEnv) (st : Store) (query : String)
    (top_k : Int) : String :=
  match (search_server env st query top_k).1 with
  | .error e => errorPayload e
  | .ok results =>
    match results.mapM (fun r => (json_loads r.tools).map (resultJson r)) with
    | .error e => errorPayload e
    | .ok out => Json.dumps (.arr out)

/-- The tool `add_mcp_server`: serialize the structured `tools` list to a
JSON string, register through `add_server`, serialize its result dict; any
raised exception becomes the structured error payload (and the store is
unchanged). -/
def add_mcp_server (env : DiscEnv) (st : Store) (server_name
    server_description server_endpoint : String) (tools : Json) :
    String × Store :=
  let tools_json := Json.dumps tools
  match add_server env st server_name server_description server_endpoint
      tools_json with
  | .error e => (errorPayload e, st)
  | .ok (result, st2) =>
    (Json.dumps (.obj [("status", .str result.status),
        ("message", .str result.message)]), st2)

/-- Stack-discipline checker for a trace: acquisitions push, each release
must release exactly the most recently acquired live resource, and at the
end of the trace the stack must be empty (everything acquired was released,
in reverse order of acquisition). -/
def checkScoped : List TEvent → List Res → Bool
  | [], stk => stk.isEmpty
  | ev :: rest, stk =>
    match ev with
    | .acquire r => checkScoped rest (r :: stk)
    | .release r =>
      match stk with
      | top :: stk2 => top == r && checkScoped rest stk2
      | [] => false
    | _ => checkScoped rest stk

/-- The spec's resolution algorithm, written from the spec's words (for
comparison with `get_server_endpoint`): (a) look for an exact identity
match among the narrow probe's results and return its endpoint; (b)
otherwise look among the broad probe's results; (c) otherwise fail with the
not-found error.  The second component lists the probes run, as
(query, topK) pairs. -/
def resolveEndpointSpec (identity : String) (narrow broad : List SearchResult) :
    Except String String × List (String × Int) :=
  match narrow.find? (fun r => r.server_name == identity) with
  | some r => (.ok r.server_endpoint, [(identity, 20)])
  | none =>
    match broad.find? (fun r => r.server_name == identity) with
    | some r => (.ok r.server_endpoint, [(identity, 20), ("", 100)])
    | none => (.error (notFoundMsg identity), [(identity, 20), ("", 100)])

/-- A discovery environment where every external call succeeds: embeddings
are the empty vector, inserts and queries succeed, and the store ranks the
collection in insertion order. -/
def dsEnv0 : DiscEnv where
  embed := fun _ => .ok []
  insertOk := fun _ => true
  queryRaise := fun _ _ => none
  queryRsp := fun _ _ => true
  rank := fun _ docs => docs
  score := fun _ _ => 0

/-- A discovery environment whose embedding provider is down: every
embedding call raises, so both similarity probes raise. -/
def dsEnvEmbedDown : DiscEnv where
  embed := fun _ => .error "embedding provider down"
  insertOk := fun _ => true
  queryRaise := fun _ _ => none
  queryRsp := fun _ _ => true
  rank := fun _ docs => docs
  score := fun _ _ => 0

/-- A discovery environment where only the broad probe's empty-string
embedding raises; everything else succeeds. -/
def dsEnvBroadDown : DiscEnv where
  embed := fun s => if s == "" then .error "embedding provider down" else .ok []
  insertOk := fun _ => true
  queryRaise := fun _ _ => none
  queryRsp := fun _ _ => true
  rank := fun _ docs => docs
  score := fun _ _ => 0

/-- A store holding one registered service. -/
def st0 : Store := ⟨[⟨"svc-a", [], ⟨"weather lookup", "http://svc-a/mcp", "[]"⟩⟩]⟩

/-- One of 100 pre-registered services crowding the collection. -/
def mkOldDoc (i : Nat) : Doc :=
  ⟨"s" ++ toString i, [], ⟨"an old service", "http://old/mcp", "[]"⟩⟩

/-- A collection already holding 100 services. -/
def bigStore : Store := ⟨(List.range 100).map mkOldDoc⟩

/-- The document registering "target" into `bigStore` produces. -/
def targetDoc : Doc := ⟨"target", [], ⟨"desc", "http://target/mcp", "[]"⟩⟩

/-- A dispatch environment that resolves every identity to an SSE-marked
endpoint, with streaming support available and every downstream call
succeeding. -/
def dEnvSse : DispatchEnv where
  resolve := fun _ => .ok "http://amap-sse.example/mcp"
  haveSse := true
  post := fun _ _ => .ok (Json.str "pong")
  sseConnect := fun _ => .ok 0
  sessionEnter := fun _ => .ok 1
  sessionInit := fun _ => .ok ()
  callTool := fun _ _ _ => .ok (Json.str "done")

/-- A dispatch environment that resolves every identity to a plain HTTP
endpoint (no streaming marker), every downstream call succeeding. -/
def dEnvHttp : DispatchEnv where
  resolve := fun _ => .ok "http://plain.example/mcp"
  haveSse := true
  post := fun _ _ => .ok (Json.str "pong")
  sseConnect := fun _ => .ok 0
  sessionEnter := fun _ => .ok 1
  sessionInit := fun _ => .ok ()
  callTool := fun _ _ _ => .ok (Json.str "done")

/-- A dispatch environment whose endpoint resolution raises. -/
def dEnvResolveDown : DispatchEnv where
  resolve := fun _ => .error "store down"
  haveSse := true
  post := fun _ _ => .ok (Json.str "pong")
  sseConnect := fun _ => .ok 0
  sessionEnter := fun _ => .ok 1
  sessionInit := fun _ => .ok ()
  callTool := fun _ _ _ => .ok (Json.str "done")

/-- A dispatch environment where the streaming session's initialization
handshake raises after the stream and session are opened. -/
def dEnvInitDown : DispatchEnv where
  resolve := fun _ => .ok "http://amap-sse.example/mcp"
  haveSse := true
  post := fun _ _ => .ok (Json.str "pong")
  sseConnect := fun _ => .ok 0
  sessionEnter := fun _ => .ok 1
  sessionInit := fun _ => .error "handshake refused"
  callTool := fun _ _ _ => .ok (Json.str "done")

/-- C1: For every target identity, operation name, and arguments, and for
any failure raised at any step (endpoint resolution, transport selection,
or transport execution), `exec_mcp_tool` returns a value — the transport's
result on success, and the structured payload `{"error": message}` holding
exactly the failure's message on any failure — and never propagates the
failure to its caller. -/
theorem exec_mcp_tool_never_raises (env : DispatchEnv)
    (target_server_name target_tool_name : String) (parameters : Json) :
    (∃ r evs,
      execInner env target_server_name target_tool_name parameters = (.ok r, evs) ∧
      exec_mcp_tool env target_server_name target_tool_name parameters = (r, evs)) ∨
    (∃ e evs,
      execInner env target_server_name target_tool_name parameters = (.error e, evs) ∧
      exec_mcp_tool env target_server_name target_tool_name parameters =
        (Json.dumps (Json.obj [("error", Json.str e)]), evs)) := by
  rcases h : execInner env target_server_name target_tool_name parameters with ⟨e | r, evs⟩
  · exact .inr ⟨e, evs, rfl, by simp [exec_mcp_tool, h, errorPayload]⟩
  · exact .inl ⟨r, evs, rfl, by simp [exec_mcp_tool, h]⟩

/-- C6: When resolution yields an endpoint, the dispatcher executes via the
streaming-session strategy exactly when the endpoint's lowercased text
contains the streaming marker "sse" and streaming support is available in
the process; in every other case it executes via the request/response
strategy.  The trace head records the strategy entered, and the result is
the chosen transport's result. -/
theorem transport_selection (env : DispatchEnv)
    (target_server_name target_tool_name : String) (parameters : Json)
    (target_endpoint : String)
    (h : env.resolve target_server_name = .ok target_endpoint) :
    ((sseInEndpoint target_endpoint && env.haveSse) = true →
      execInner env target_server_name target_tool_name parameters =
        ((_execute_sse_tool env target_endpoint target_tool_name parameters).1,
          .sseCall target_endpoint ::
            (_execute_sse_tool env target_endpoint target_tool_name parameters).2)) ∧
    ((sseInEndpoint target_endpoint && env.haveSse) = false →
      execInner env target_server_name target_tool_name parameters =
        ((_execute_http_tool env target_endpoint target_tool_name parameters).1,
          .httpCall target_endpoint ::
            (_execute_http_tool env target_endpoint target_tool_name parameters).2)) := by
  constructor <;> intro hc <;> simp [execInner, h, hc]

/-- Witness for C6: a concrete environment resolving to an SSE-marked
endpoint with streaming support runs the streaming strategy; one resolving
to a plain endpoint runs the request/response strategy. -/
theorem transport_selection_witness :
    execInner dEnvSse "svc" "op" Json.null =
      (.ok "\"done\"", [.sseCall "http://amap-sse.example/mcp",
        .acquire .stream, .acquire .session, .release .session, .release .stream]) ∧
    execInner dEnvHttp "svc" "op" Json.null =
      (.ok "\"pong\"", [.httpCall "http://plain.example/mcp",
        .post "http://plain.example/mcp" (jsonRpcRequest "op" Json.null)]) := by
  constructor
  · exact ((transport_selection dEnvSse "svc" "op" Json.null
      "http://amap-sse.example/mcp" rfl).1 (by decide)).trans rfl
  · exact ((transport_selection dEnvHttp "svc" "op" Json.null
      "http://plain.example/mcp" rfl).2 (by decide)).trans rfl

/-- C8: The request/response transport sends exactly one outbound request,
whose body is the JSON-RPC envelope with protocol version "2.0", method
"tools/call", params holding the operation name and arguments, and the
fixed id 1; and when the remote response decodes, it returns the decoded
body verbatim (re-serialized), without inspecting its fields. -/
theorem http_transport_single_post (env : DispatchEnv)
    (endpoint tool_name : String) (parameters : Json) :
    (_execute_http_tool env endpoint tool_name parameters).2 =
      [.post endpoint (Json.obj
        [("jsonrpc", .str "2.0"),
         ("method", .str "tools/call"),
         ("params", .obj [("name", .str tool_name), ("arguments", parameters)]),
         ("id", .num 1)])] ∧
    (∀ response_data,
      env.post endpoint (jsonRpcRequest tool_name parameters) = .ok response_data →
      (_execute_http_tool env endpoint tool_name parameters).1 =
        .ok (Json.dumps response_data)) := by
  constructor
  · rcases h : env.post endpoint (jsonRpcRequest tool_name parameters) with e | r <;>
      simp only [_execute_http_tool, h] <;> rfl
  · intro response_data h
    simp [_execute_http_tool, h]

/-- Witness for C8: in a concrete environment whose remote replies with the
string "pong", the transport posts exactly the envelope once and returns
the serialized reply. -/
theorem http_transport_single_post_witness :
    (_execute_http_tool dEnvHttp "http://plain.example/mcp" "getWeather"
      (Json.obj [("city", .str "Paris")])).2 =
      [.post "http://plain.example/mcp" (Json.obj
        [("jsonrpc", .str "2.0"),
         ("method", .str "tools/call"),
         ("params", .obj [("name", .str "getWeather"),
            ("arguments", Json.obj [("city", .str "Paris")])]),
         ("id", .num 1)])] ∧
    (_execute_http_tool dEnvHttp "http://plain.example/mcp" "getWeather"
      (Json.obj [("city", .str "Paris")])).1 = .ok "\"pong\"" := by
  refine ⟨(http_transport_single_post dEnvHttp "http://plain.example/mcp"
    "getWeather" (Json.obj [("city", .str "Paris")])).1, ?_⟩
  exact ((http_transport_single_post dEnvHttp "http://plain.example/mcp"
    "getWeather" (Json.obj [("city", .str "Paris")])).2 (Json.str "pong") rfl).trans rfl

/-- C3: On every exit path of the streaming transport — success, failure at
any step, or cancellation (an exceptional exit) — the resources acquired so
far are released in reverse order of acquisition (the trace satisfies the
stack discipline with an empty final stack); in particular, if session
initialization fails after the stream and session are opened, both are
still released, session first, then stream, and the failure propagates. -/
theorem sse_cleanup (env : DispatchEnv) (endpoint tool_name : String)
    (parameters : Json) :
    checkScoped (_execute_sse_tool env endpoint tool_name parameters).2 [] = true ∧
    (∀ streams session e,
      env.sseConnect endpoint = .ok streams →
      env.sessionEnter streams = .ok session →
      env.sessionInit session = .error e →
      _execute_sse_tool env endpoint tool_name parameters =
        (.error e, [.acquire .stream, .acquire .session,
                    .release .session, .release .stream])) := by
  constructor
  · rcases h1 : env.sseConnect endpoint with e1 | streams
    · simp [_execute_sse_tool, h1, checkScoped]
    · rcases h2 : env.sessionEnter streams with e2 | session
      · simp [_execute_sse_tool, h1, h2, checkScoped]
      · rcases h3 : env.sessionInit session with e3 | u
        · simp [_execute_sse_tool, h1, h2, h3, checkScoped]
        · rcases h4 : env.callTool session tool_name parameters with e4 | res <;>
            simp [_execute_sse_tool, h1, h2, h3, h4, checkScoped]
  · intro streams session e h1 h2 h3
    simp [_execute_sse_tool, h1, h2, h3]

/-- Witness for C3: in a concrete environment whose initialization
handshake fails after stream and session are opened, the transport reports
that failure with the full acquire/release trace in LIFO order. -/
theorem sse_cleanup_witness :
    checkScoped (_execute_sse_tool dEnvInitDown "http://amap-sse.example/mcp"
      "op" Json.null).2 [] = true ∧
    _execute_sse_tool dEnvInitDown "http://amap-sse.example/mcp" "op" Json.null =
      (.error "handshake refused",
       [.acquire .stream, .acquire .session, .release .session, .release .stream]) := by
  refine ⟨(sse_cleanup dEnvInitDown "http://amap-sse.example/mcp" "op" Json.null).1, ?_⟩
  exact (sse_cleanup dEnvInitDown "http://amap-sse.example/mcp" "op" Json.null).2
    0 1 "handshake refused" rfl rfl rfl

/-- C2: When both similarity probes return (no exception), resolution
follows exactly the spec's algorithm: the narrow probe (identity, topK=20)
is scanned for an exact identity match, then the broad probe ("", topK=100),
and otherwise the not-found error is raised — with the probes run being,
respectively, the narrow one alone when it matches, and both in every other
case (so an unregistered identity fails only after both probes ran). -/
theorem resolve_follows_spec (env : DiscEnv) (st : Store) (server_name : String)
    (r1 r2 : List SearchResult)
    (h1 : (search_server env st server_name 20).1 = .ok r1)
    (h2 : (search_server env st "" 100).1 = .ok r2) :
    get_server_endpoint env st server_name = resolveEndpointSpec server_name r1 r2 := by
  simp only [get_server_endpoint, resolveEndpointSpec, h1, h2]

/-- Witness for C2: on a concrete environment with an empty collection both
probes return empty lists, and resolving an unregistered identity matches
the spec algorithm's outcome: not-found, after both probes. -/
theorem resolve_follows_spec_witness :
    get_server_endpoint dsEnv0 ⟨[]⟩ "unregistered-id" =
      resolveEndpointSpec "unregistered-id" [] [] ∧
    get_server_endpoint dsEnv0 ⟨[]⟩ "unregistered-id" =
      (.error (notFoundMsg "unregistered-id"), [("unregistered-id", 20), ("", 100)]) := by
  refine ⟨resolve_follows_spec dsEnv0 ⟨[]⟩ "unregistered-id" [] [] rfl rfl, ?_⟩
  exact (resolve_follows_spec dsEnv0 ⟨[]⟩ "unregistered-id" [] [] rfl rfl).trans rfl

/-- C10: If the narrow probe raises, the exception is swallowed, the broad
probe is never attempted (the probe trace holds only the narrow probe), and
the operation fails with the not-found error instead of the underlying
failure; and if the narrow probe returns without an exact match and the
broad probe raises, that exception is likewise swallowed into the same
not-found error. -/
theorem probe_exception_swallowed (env1 env2 : DiscEnv) (st1 st2 : Store)
    (server_name e1 e2 : String) (r1 : List SearchResult)
    (h1 : (search_server env1 st1 server_name 20).1 = .error e1) :
    get_server_endpoint env1 st1 server_name =
      (.error (notFoundMsg server_name), [(server_name, 20)]) ∧
    ((search_server env2 st2 server_name 20).1 = .ok r1 →
     r1.find? (fun r => r.server_name == server_name) = none →
     (search_server env2 st2 "" 100).1 = .error e2 →
     get_server_endpoint env2 st2 server_name =
       (.error (notFoundMsg server_name), [(server_name, 20), ("", 100)])) := by
  constructor
  · simp only [get_server_endpoint, h1]
  · intro g1 g2 g3
    simp only [get_server_endpoint, g1, g2, g3]

/-- Witness for C10: with the embedding provider down the narrow probe
raises and resolution reports not-found after that probe alone; with only
the broad probe's embedding down, the narrow probe returns empty, the broad
probe raises, and resolution reports the same not-found error. -/
theorem probe_exception_swallowed_witness :
    get_server_endpoint dsEnvEmbedDown ⟨[]⟩ "ghost" =
      (.error (notFoundMsg "ghost"), [("ghost", 20)]) ∧
    get_server_endpoint dsEnvBroadDown ⟨[]⟩ "ghost" =
      (.error (notFoundMsg "ghost"), [("ghost", 20), ("", 100)]) := by
  have h := probe_exception_swallowed dsEnvEmbedDown dsEnvBroadDown ⟨[]⟩ ⟨[]⟩
    "ghost" "embedding provider down" "embedding provider down" [] rfl
  exact ⟨h.1, h.2 rfl rfl rfl⟩

/-- Counterexample to C7 as stated: with a fully healthy concrete
environment, `search_server` called with topK = 0 is not rejected before
the store is queried — the trace shows the store query issued with topk 0,
and the call returns a normal (empty) result instead of an invalid-input
failure. -/
theorem topk_not_validated :
    (search_server dsEnv0 st0 "q" 0).1 = .ok [] ∧
    (search_server dsEnv0 st0 "q" 0).2 = [.embedCall "q", .storeQuery [] 0] :=
  ⟨rfl, rfl⟩

/-- C7 amended: `search_server` performs no topK validation at all — for
every query whose embedding succeeds and every topK, including topK ≤ 0, it
issues exactly one store query with that topK unchanged (rejection of
non-positive topK is left to the external vector store). -/
theorem topk_forwarded_unvalidated (env : DiscEnv) (st : Store)
    (query : String) (top_k : Int) (v : Vec)
    (h : env.embed query = .ok v) :
    (search_server env st query top_k).2 = [.embedCall query, .storeQuery v top_k] := by
  simp only [search_server, h]
  rcases hq : env.queryRaise v top_k with _ | e
  · cases hr : env.queryRsp v top_k <;> simp [hq, hr]
  · simp [hq]

/-- Witness for the amended C7: a negative topK is forwarded unchanged to
the store query. -/
theorem topk_forwarded_unvalidated_witness :
    (search_server dsEnv0 st0 "q" (-5)).2 = [.embedCall "q", .storeQuery [] (-5)] :=
  topk_forwarded_unvalidated dsEnv0 st0 "q" (-5) [] rfl

/-- The document just upserted is in the collection. -/
theorem upsert_mem (st : Store) (d : Doc) : d ∈ (st.upsert d).docs := by
  unfold Store.upsert
  by_cases h : st.docs.any (fun e => e.id == d.id)
  · simp only [h, if_true]
    rcases List.any_eq_true.mp h with ⟨e, he, hid⟩
    exact List.mem_map.mpr ⟨e, he, by simp [hid]⟩
  · simp [h]

/-- After an upsert of `d`, every collection member carrying `d`'s id is
`d` itself (the upsert replaced every record with that id). -/
theorem upsert_unique (st : Store) (d e : Doc)
    (he : e ∈ (st.upsert d).docs) (hid : e.id = d.id) : e = d := by
  unfold Store.upsert at he
  by_cases h : st.docs.any (fun x => x.id == d.id)
  · simp only [h, if_true] at he
    rcases List.mem_map.mp he with ⟨x, hx, hxe⟩
    by_cases hx2 : (x.id == d.id) = true
    · rw [if_pos hx2] at hxe
      exact hxe.symm
    · rw [if_neg hx2] at hxe
      subst hxe
      exact absurd (beq_iff_eq.mpr hid) hx2
  · simp only [h, if_false] at he
    rcases List.mem_append.mp he with he | he
    · exfalso
      exact h (List.any_eq_true.mpr ⟨e, he, beq_iff_eq.mpr hid⟩)
    · simpa using he

/-- Upserting preserves the id-uniqueness invariant of the collection. -/
theorem upsert_keysNodup (st : Store) (d : Doc) (h : keysNodup st.docs) :
    keysNodup (st.upsert d).docs := by
  unfold Store.upsert keysNodup
  by_cases ha : st.docs.any (fun e => e.id == d.id)
  · simp only [ha, if_true]
    refine List.Pairwise.map _ ?_ h
    intro a b hab
    have ida : (if a.id == d.id then d else a).id = a.id := by
      by_cases h2 : (a.id == d.id) = true
      · rw [if_pos h2, (beq_iff_eq.mp h2)]
      · rw [if_neg h2]
    have idb : (if b.id == d.id then d else b).id = b.id := by
      by_cases h2 : (b.id == d.id) = true
      · rw [if_pos h2, (beq_iff_eq.mp h2)]
      · rw [if_neg h2]
    rw [ida, idb]
    exact hab
  · simp only [ha, if_false]
    refine List.pairwise_append.mpr ⟨h, List.pairwise_singleton _ _, ?_⟩
    intro a ha' b hb
    simp only [List.mem_singleton] at hb
    subst hb
    intro hEq
    exact ha (List.any_eq_true.mpr ⟨a, ha', beq_iff_eq.mpr hEq⟩)

/-- A pairwise-irreflexive-over-ids list all of whose members equal `d`,
and containing `d`, is exactly `[d]`. -/
theorem pairwise_all_eq {l : List Doc} {d : Doc}
    (hp : l.Pairwise (fun a b => a.id ≠ b.id))
    (hall : ∀ x ∈ l, x = d) (hmem : d ∈ l) : l = [d] := by
  match l with
  | [] => cases hmem
  | [x] => rw [hall x (by simp)]
  | x :: y :: rest =>
    have hx := hall x (by simp)
    have hy := hall y (by simp)
    have hxy := (List.pairwise_cons.mp hp).1 y (by simp)
    rw [hx, hy] at hxy
    exact absurd rfl hxy

/-- In an id-unique collection, upserting `d` leaves exactly one record
carrying `d`'s id, and it is `d`. -/
theorem upsert_filter (st : Store) (d : Doc) (h : keysNodup st.docs) :
    (st.upsert d).docs.filter (fun e => e.id == d.id) = [d] := by
  have hnd := upsert_keysNodup st d h
  apply pairwise_all_eq
  · exact List.Pairwise.sublist (List.filter_sublist _) hnd
  · intro x hx
    have hm := List.mem_filter.mp hx
    exact upsert_unique st d x hm.1 (beq_iff_eq.mp hm.2)
  · exact List.mem_filter.mpr ⟨upsert_mem st d, beq_iff_eq.mpr rfl⟩

/-- C5: Registering the same identity twice (with possibly different
descriptions, endpoints and serialized operations) succeeds and leaves
exactly one stored record for that identity, holding the fields of the most
recent registration, with the id-uniqueness invariant intact. -/
theorem register_twice_upserts (env : DiscEnv) (st : Store)
    (server_name desc1 ep1 tools1 desc2 ep2 tools2 : String) (v1 v2 : Vec)
    (hnd : keysNodup st.docs)
    (h1 : env.embed desc1 = .ok v1) (h2 : env.embed desc2 = .ok v2)
    (hins : ∀ d, env.insertOk d = true) :
    ∃ r1 st1 r2 st2,
      add_server env st server_name desc1 ep1 tools1 = .ok (r1, st1) ∧
      add_server env st1 server_name desc2 ep2 tools2 = .ok (r2, st2) ∧
      st2.docs.filter (fun e => e.id == server_name) =
        [⟨server_name, v2, ⟨desc2, ep2, tools2⟩⟩] ∧
      keysNodup st2.docs := by
  refine ⟨⟨"success", "Server '" ++ server_name ++ "' registered."⟩,
    st.upsert ⟨server_name, v1, ⟨desc1, ep1, tools1⟩⟩,
    ⟨"success", "Server '" ++ server_name ++ "' registered."⟩,
    (st.upsert ⟨server_name, v1, ⟨desc1, ep1, tools1⟩⟩).upsert
      ⟨server_name, v2, ⟨desc2, ep2, tools2⟩⟩, ?_, ?_, ?_, ?_⟩
  · simp [add_server, h1, hins]
  · simp [add_server, h2, hins]
  · simpa using upsert_filter (st.upsert ⟨server_name, v1, ⟨desc1, ep1, tools1⟩⟩)
      ⟨server_name, v2, ⟨desc2, ep2, tools2⟩⟩
      (upsert_keysNodup st ⟨server_name, v1, ⟨desc1, ep1, tools1⟩⟩ hnd)
  · exact upsert_keysNodup _ _ (upsert_keysNodup _ _ hnd)

/-- Witness for C5: registering "svc-a" twice into an empty collection with
different fields leaves exactly the second registration's record. -/
theorem register_twice_upserts_witness :
    ∃ r1 st1 r2 st2,
      add_server dsEnv0 ⟨[]⟩ "svc-a" "weather" "http://a1/mcp" "[]" = .ok (r1, st1) ∧
      add_server dsEnv0 st1 "svc-a" "geo" "http://a2/mcp" "[\"t\"]" = .ok (r2, st2) ∧
      st2.docs.filter (fun e => e.id == "svc-a") =
        [⟨"svc-a", [], ⟨"geo", "http://a2/mcp", "[\"t\"]"⟩⟩] ∧
      keysNodup st2.docs :=
  register_twice_upserts dsEnv0 ⟨[]⟩ "svc-a" "weather" "http://a1/mcp" "[]"
    "geo" "http://a2/mcp" "[\"t\"]" [] [] List.Pairwise.nil rfl rfl (fun _ => rfl)

/-- Upserting grows the collection by at most one record. -/
theorem upsert_length (st : Store) (d : Doc) :
    (st.upsert d).docs.length ≤ st.docs.length + 1 := by
  unfold Store.upsert
  by_cases h : st.docs.any (fun e => e.id == d.id) <;> simp [h]

/-- Whatever exact-name match `find?` returns over search results drawn
from a collection in which every record named `name` equals `d`, its
endpoint field is `d`'s endpoint. -/
theorem found_endpoint (env : DiscEnv) (docs : List Doc) (d : Doc)
    (name : String) (u : Vec) (k : Nat)
    (huniq : ∀ e ∈ docs, e.id = name → e = d)
    (hperm : (env.rank u docs).Perm docs)
    (r : SearchResult)
    (hf : (((env.rank u docs).take k).map (mkResult env u)).find?
        (fun x => x.server_name == name) = some r) :
    r.server_endpoint = d.fields.server_endpoint := by
  have hmem := List.mem_of_find?_eq_some hf
  have hpred := List.find?_some hf
  rcases List.mem_map.mp hmem with ⟨e, he, hre⟩
  have he2 : e ∈ docs := hperm.mem_iff.mp (List.take_subset k _ he)
  subst hre
  have hid : e.id = name := by simpa [mkResult] using hpred
  rw [huniq e he2 hid]
  rfl

/-- Resolution succeeds with `d`'s endpoint whenever the collection holds
`d` as its unique record named `name`, the external calls succeed, the
store's ranking is a permutation of the collection, and the collection is
small enough (at most 100 records) for the broad probe to return it
whole. -/
theorem get_endpoint_of_unique (env : DiscEnv) (st1 : Store)
    (name : String) (d : Doc) (vn vb : Vec)
    (hidd : d.id = name)
    (hmemd : d ∈ st1.docs)
    (huniq : ∀ e ∈ st1.docs, e.id = name → e = d)
    (hn : env.embed name = .ok vn) (hb : env.embed "" = .ok vb)
    (hqr : ∀ u k, env.queryRaise u k = none)
    (hqok : ∀ u k, env.queryRsp u k = true)
    (hperm : ∀ u ds, (env.rank u ds).Perm ds)
    (hlen : st1.docs.length ≤ 100) :
    (get_server_endpoint env st1 name).1 = .ok d.fields.server_endpoint := by
  simp only [get_server_endpoint, search_server, hn, hb, hqr, hqok, if_true]
  rcases hfind : (((env.rank vn st1.docs).take (Int.toNat 20)).map
      (mkResult env vn)).find? (fun r => r.server_name == name) with _ | r
  · have htake : (env.rank vb st1.docs).take (Int.toNat 100) =
        env.rank vb st1.docs := by
      apply List.take_of_length_le
      rw [(hperm vb st1.docs).length_eq]
      exact le_trans hlen (by norm_num)
    have hdmem : mkResult env vb d ∈
        ((env.rank vb st1.docs).take (Int.toNat 100)).map (mkResult env vb) := by
      rw [htake]
      exact List.mem_map_of_mem _ ((hperm vb st1.docs).mem_iff.mpr hmemd)
    rcases hf2 : (((env.rank vb st1.docs).take (Int.toNat 100)).map
        (mkResult env vb)).find? (fun r => r.server_name == name) with _ | r2
    · exfalso
      exact (List.find?_eq_none.mp hf2 _ hdmem) (by simp [mkResult, hidd])
    · simp only [hfind, hf2]
      rw [found_endpoint env st1.docs d name vb (Int.toNat 100) huniq
        (hperm vb st1.docs) r2 hf2]
  · simp only [hfind]
    rw [found_endpoint env st1.docs d name vn (Int.toNat 20) huniq
      (hperm vn st1.docs) r hfind]

/-- C4 amended: registering a descriptor and then resolving its identity
returns its endpoint exactly, provided the external embedding, insert and
query calls succeed, the store ranks the collection as a permutation of
itself, and the collection holds at most 99 records before registration
(at most 100 after it, so the broad topK=100 probe is guaranteed to
surface the new record). -/
theorem round_trip_amended (env : DiscEnv) (st : Store)
    (server_name desc ep tools : String) (v vn vb : Vec)
    (hd : env.embed desc = .ok v) (hn : env.embed server_name = .ok vn)
    (hb : env.embed "" = .ok vb)
    (hins : ∀ d, env.insertOk d = true)
    (hqr : ∀ u k, env.queryRaise u k = none)
    (hqok : ∀ u k, env.queryRsp u k = true)
    (hperm : ∀ u ds, (env.rank u ds).Perm ds)
    (hlen : st.docs.length ≤ 99) :
    ∃ r st1, add_server env st server_name desc ep tools = .ok (r, st1) ∧
      (get_server_endpoint env st1 server_name).1 = .ok ep := by
  refine ⟨⟨"success", "Server '" ++ server_name ++ "' registered."⟩,
    st.upsert ⟨server_name, v, ⟨desc, ep, tools⟩⟩, ?_, ?_⟩
  · simp [add_server, hd, hins]
  · exact get_endpoint_of_unique env (st.upsert ⟨server_name, v, ⟨desc, ep, tools⟩⟩)
      server_name ⟨server_name, v, ⟨desc, ep, tools⟩⟩ vn vb rfl
      (upsert_mem st _) (fun e he hid => upsert_unique st _ e he hid)
      hn hb hqr hqok hperm (le_trans (upsert_length st _) (by omega))

/-- Witness for the amended C4: registering into an empty collection and
resolving returns the registered endpoint. -/
theorem round_trip_amended_witness :
    ∃ r st1,
      add_server dsEnv0 ⟨[]⟩ "svc-a" "weather lookup" "http://svc-a/mcp" "[]" =
        .ok (r, st1) ∧
      (get_server_endpoint dsEnv0 st1 "svc-a").1 = .ok "http://svc-a/mcp" :=
  round_trip_amended dsEnv0 ⟨[]⟩ "svc-a" "weather lookup" "http://svc-a/mcp" "[]"
    [] [] [] rfl rfl rfl (fun _ => rfl) (fun _ _ => rfl) (fun _ _ => rfl)
    (fun _ ds => List.Perm.refl ds) (by simp)

/-- Counterexample to C4 as stated: in a healthy concrete environment whose
collection already holds 100 other records (ranked ahead of the new one),
registering "target" succeeds, yet resolving "target" fails with the
not-found error instead of returning its endpoint — the narrow top-20 and
broad top-100 probes both miss the 101st record. -/
theorem round_trip_counterexample :
    add_server dsEnv0 bigStore "target" "desc" "http://target/mcp" "[]" =
      .ok (⟨"success", "Server 'target' registered."⟩, ⟨bigStore.docs ++ [targetDoc]⟩) ∧
    (get_server_endpoint dsEnv0 ⟨bigStore.docs ++ [targetDoc]⟩ "target").1 =
      .error (notFoundMsg "target") := by
  exact ⟨rfl, rfl⟩

/-- C9: The structured operations list is serialized to an opaque string at
registration and stored verbatim by the registry (the single stored record
holds exactly the serialized string), and is deserialized back at the
dispatcher boundary: searching returns a payload whose tools field is the
original structured value again (round-trip through `json.dumps` /
`json.loads`, the stdlib codec pair modelled by the executable serializer
and parser above, whose inversion is the `hcodec` hypothesis). -/
theorem tools_serialization_roundtrip (env : DiscEnv)
    (server_name desc ep query : String) (tools : Json)
    (v qv : Vec) (top_k : Int)
    (hd : env.embed desc = .ok v) (hq : env.embed query = .ok qv)
    (hins : ∀ d, env.insertOk d = true)
    (hqr : ∀ u j, env.queryRaise u j = none)
    (hqok : ∀ u j, env.queryRsp u j = true)
    (hperm : ∀ u ds, (env.rank u ds).Perm ds)
    (hk : 1 ≤ top_k)
    (hcodec : json_loads (Json.dumps tools) = .ok tools) :
    add_mcp_server env ⟨[]⟩ server_name desc ep tools =
      (Json.dumps (.obj [("status", .str "success"),
         ("message", .str ("Server '" ++ server_name ++ "' registered."))]),
       ⟨[⟨server_name, v, ⟨desc, ep, Json.dumps tools⟩⟩]⟩) ∧
    search_mcp_server env ⟨[⟨server_name, v, ⟨desc, ep, Json.dumps tools⟩⟩]⟩
        query top_k =
      Json.dumps (.arr [resultJson
        ⟨server_name, desc, ep, Json.dumps tools, env.score qv v⟩ tools]) := by
  have hrank : env.rank qv [⟨server_name, v, ⟨desc, ep, Json.dumps tools⟩⟩] =
      [⟨server_name, v, ⟨desc, ep, Json.dumps tools⟩⟩] :=
    List.perm_singleton.mp (hperm qv _)
  have htake : ([⟨server_name, v, ⟨desc, ep, Json.dumps tools⟩⟩] : List Doc).take
      top_k.toNat = [⟨server_name, v, ⟨desc, ep, Json.dumps tools⟩⟩] := by
    apply List.take_of_length_le
    simp
    omega
  constructor
  · simp [add_mcp_server, add_server, hd, hins, Store.upsert]
  · simp only [search_mcp_server, search_server, hq, hqr, hqok, if_true,
      hrank, htake]
    simp [List.mapM.loop, hcodec, mkResult, resultJson, Except.map]

/-- Witness for C9: a concrete one-operation tools list survives the
registration/search round trip intact. -/
theorem tools_serialization_roundtrip_witness :
    search_mcp_server dsEnv0
        ⟨[⟨"svc-a", [], ⟨"weather lookup", "http://svc-a/mcp",
          Json.dumps (.arr [.obj [("name", .str "getWeather")]])⟩⟩]⟩ "weather" 3 =
      Json.dumps (.arr [resultJson
        ⟨"svc-a", "weather lookup", "http://svc-a/mcp",
          Json.dumps (.arr [.obj [("name", .str "getWeather")]]), 0⟩
        (.arr [.obj [("name", .str "getWeather")]])]) :=
  (tools_serialization_roundtrip dsEnv0 "svc-a" "weather lookup"
    "http://svc-a/mcp" "weather" (.arr [.obj [("name", .str "getWeather")]])
    [] [] 3 rfl rfl (fun _ => rfl) (fun _ _ => rfl) (fun _ _ => rfl)
    (fun _ ds => List.Perm.refl ds) (by decide) rfl).2
